import Mathlib

/-!
Verification of the multi-provider streaming response protocol layer of the
AI-Assistant browser/desktop application.

The development shallowly embeds the relevant TypeScript functions of the API
layer (`executeApiCall`, `executeApiStream`, `callApi`, `readStream`,
`streamOpenAI`, `streamGoogle`, `callOpenAI`) as executable Lean functions.
Text is modelled as `List Char`; JavaScript's `JSON.parse` is modelled by an
executable recursive-descent parser `jsonParse`; promise rejection (a thrown
`AbortError`) is modelled with `Except`.
-/

namespace Spec2Proof

/-- Result shape returned by every API operation in the source:
`interface ApiResponse { text: string; error?: string }`. -/
structure ApiResponse where
  text : List Char
  error : Option (List Char) := none
deriving DecidableEq, Repr

/-- JSON values, as produced by the model of `JSON.parse`.  Numbers are
modelled as integers only; none of the payloads the theorems below evaluate
contain fractional numerics. -/
inductive Json where
  | null
  | bool (b : Bool)
  | num (n : Int)
  | str (s : List Char)
  | arr (elems : List Json)
  | obj (fields : List (List Char × Json))
deriving Repr

/-- JSON insignificant whitespace skipping. -/
def skipWs : List Char → List Char
  | [] => []
  | c :: cs => if c = ' ' ∨ c = '\n' ∨ c = '\t' ∨ c = '\r' then skipWs cs else c :: cs

/-- Body of a JSON string literal after the opening quote: returns the decoded
characters and the input following the closing quote.  The common single-char
escapes are decoded; `\u` escapes are not modelled (no payload below uses
them, and an input using one simply fails to parse). -/
def parseStringBody : Nat → List Char → Option (List Char × List Char)
  | 0, _ => none
  | _ + 1, [] => none
  | fuel + 1, c :: cs =>
    if c = '"' then some ([], cs)
    else if c = '\\' then
      match cs with
      | [] => none
      | e :: cs' =>
        let dec : Option Char :=
          if e = 'n' then some '\n'
          else if e = 't' then some '\t'
          else if e = 'r' then some '\r'
          else if e = 'b' then some (Char.ofNat 8)
          else if e = 'f' then some (Char.ofNat 12)
          else if e = '"' ∨ e = '\\' ∨ e = '/' then some e
          else none
        match dec with
        | some ch =>
          match parseStringBody fuel cs' with
          | some (s, rest) => some (ch :: s, rest)
          | none => none
        | none => none
    else
      match parseStringBody fuel cs with
      | some (s, rest) => some (c :: s, rest)
      | none => none

/-- Longest prefix of decimal digits. -/
def takeDigits : List Char → List Char × List Char
  | [] => ([], [])
  | c :: cs =>
    if '0' ≤ c ∧ c ≤ '9' then
      let r := takeDigits cs
      (c :: r.1, r.2)
    else ([], c :: cs)

/-- Decimal digit list to a natural number. -/
def digitsToNat (ds : List Char) : Nat :=
  ds.foldl (fun a c => a * 10 + (c.toNat - 48)) 0

mutual

/-- Recursive-descent JSON value parser (fuel-indexed). -/
def parseValue : Nat → List Char → Option (Json × List Char)
  | 0, _ => none
  | fuel + 1, input =>
    match skipWs input with
    | [] => none
    | c :: cs =>
      if c = '"' then
        match parseStringBody (cs.length + 1) cs with
        | some (s, rest) => some (.str s, rest)
        | none => none
      else if c = '{' then parseObjRest fuel cs
      else if c = '[' then parseArrRest fuel cs
      else if c = 't' then
        if cs.take 3 = ['r', 'u', 'e'] then some (.bool true, cs.drop 3) else none
      else if c = 'f' then
        if cs.take 4 = ['a', 'l', 's', 'e'] then some (.bool false, cs.drop 4) else none
      else if c = 'n' then
        if cs.take 3 = ['u', 'l', 'l'] then some (.null, cs.drop 3) else none
      else if c = '-' then
        match takeDigits cs with
        | ([], _) => none
        | (ds, rest) => some (.num (-(digitsToNat ds : Int)), rest)
      else if '0' ≤ c ∧ c ≤ '9' then
        match takeDigits (c :: cs) with
        | (ds, rest) => some (.num (digitsToNat ds), rest)
      else none

/-- Array contents after the opening bracket. -/
def parseArrRest : Nat → List Char → Option (Json × List Char)
  | 0, _ => none
  | fuel + 1, input =>
    match skipWs input with
    | ']' :: rest => some (.arr [], rest)
    | other =>
      match parseValue fuel other with
      | none => none
      | some (v, rest) =>
        match parseArrTail fuel rest with
        | some (vs, rest') => some (.arr (v :: vs), rest')
        | none => none

/-- Array continuation: a comma and a value, repeated, then the closing bracket. -/
def parseArrTail : Nat → List Char → Option (List Json × List Char)
  | 0, _ => none
  | fuel + 1, input =>
    match skipWs input with
    | ']' :: rest => some ([], rest)
    | ',' :: rest =>
      match parseValue fuel rest with
      | none => none
      | some (v, rest') =>
        match parseArrTail fuel rest' with
        | some (vs, rest'') => some (v :: vs, rest'')
        | none => none
    | _ => none

/-- Object contents after the opening brace. -/
def parseObjRest : Nat → List Char → Option (Json × List Char)
  | 0, _ => none
  | fuel + 1, input =>
    match skipWs input with
    | '}' :: rest => some (.obj [], rest)
    | other =>
      match parseField fuel other with
      | none => none
      | some (kv, rest) =>
        match parseObjTail fuel rest with
        | some (kvs, rest') => some (.obj (kv :: kvs), rest')
        | none => none

/-- Object continuation: a comma and a member, repeated, then the closing brace. -/
def parseObjTail : Nat → List Char → Option (List (List Char × Json) × List Char)
  | 0, _ => none
  | fuel + 1, input =>
    match skipWs input with
    | '}' :: rest => some ([], rest)
    | ',' :: rest =>
      match parseField fuel rest with
      | none => none
      | some (kv, rest') =>
        match parseObjTail fuel rest' with
        | some (kvs, rest'') => some (kv :: kvs, rest'')
        | none => none
    | _ => none

/-- One object member: a string key, a colon, a value. -/
def parseField : Nat → List Char → Option ((List Char × Json) × List Char)
  | 0, _ => none
  | fuel + 1, input =>
    match skipWs input with
    | '"' :: cs =>
      match parseStringBody (cs.length + 1) cs with
      | none => none
      | some (k, rest) =>
        match skipWs rest with
        | ':' :: rest' =>
          match parseValue fuel rest' with
          | some (v, rest'') => some ((k, v), rest'')
          | none => none
        | _ => none
    | _ => none

end

/-- Model of JavaScript's `JSON.parse`: the whole input must be consumed up to
trailing whitespace, otherwise the parse fails (in JavaScript: throws). -/
def jsonParse (s : List Char) : Option Json :=
  match parseValue (s.length + 1) s with
  | some (v, rest) => if skipWs rest = [] then some v else none
  | none => none

/-- Optional-chained field access `j?.k`: defined only on objects, absent keys
give `undefined` (modelled as `none`). -/
def getField : Json → List Char → Option Json
  | .obj fields, k => (fields.find? (fun kv => kv.1 = k)).map (fun kv => kv.2)
  | _, _ => none

/-- Optional-chained index access `j?.[0]`. -/
def getIndex0 : Json → Option Json
  | .arr (x :: _) => some x
  | _ => none

/-- A JSON value used where the code expects a string; non-string values are
modelled as absent (none of the verified payloads carry one). -/
def asString : Json → Option (List Char)
  | .str s => some s
  | _ => none

/-- JavaScript truthiness filtering of an optional string result, as in
`content || null` and `if (parsed)` / `if (text)`: `undefined`, `null` and the
empty string all produce nothing. -/
def truthyText : Option (List Char) → Option (List Char)
  | some t => if t.isEmpty then none else some t
  | none => none

/-- The `json.choices?.[0]?.delta?.content` navigation of `streamOpenAI`
(line 457). -/
def deltaContent (json : Json) : Option (List Char) := do
  let choices ← getField json ("choices".toList)
  let c0 ← getIndex0 choices
  let delta ← getField c0 ("delta".toList)
  let content ← getField delta ("content".toList)
  asString content

/-- The `json.candidates?.[0]?.content?.parts?.[0]?.text` navigation of
`callGoogle` and `streamGoogle` (line 614). -/
def candidatesText (json : Json) : Option (List Char) := do
  let cands ← getField json ("candidates".toList)
  let c0 ← getIndex0 cands
  let content ← getField c0 ("content".toList)
  let parts ← getField content ("parts".toList)
  let p0 ← getIndex0 parts
  let t ← getField p0 ("text".toList)
  asString t

/-! ## Line-oriented SSE frame decoder (`readStream`, part_000 lines 354-394) -/

/-- One step of JavaScript's `buffer.split('\n')` followed by
`buffer = lines.pop()`: prepend a character to the first complete line when one
exists, otherwise to the retained tail. -/
def consLine (c : Char) : List (List Char) × List Char → List (List Char) × List Char
  | ([], t) => ([], c :: t)
  | (l :: ls, t) => ((c :: l) :: ls, t)

/-- Splits accumulated text at newline characters into the complete lines and
the trailing newline-unterminated element, exactly as
`const lines = buffer.split('\n'); buffer = lines.pop() || ''`
(part_000 lines 380-381): the popped last element becomes the new buffer. -/
def splitLines : List Char → List (List Char) × List Char
  | [] => ([], [])
  | c :: cs =>
    if c = '\n' then ([] :: (splitLines cs).1, (splitLines cs).2)
    else consLine c (splitLines cs)

/-- Mirrors `const parsed = parser(line); if (parsed) onChunk(parsed)`
(lines 384-385, 391-392): a `null` or empty-string result emits nothing. -/
def emitLine (f : List Char → Option (List Char)) (line : List Char) : Option (List Char) :=
  truthyText (f line)

/-- The chunk loop of `readStream` (lines 361-387): append each arriving chunk
to the buffer, split on newlines keeping the last element as the new buffer,
and emit the truthy parser result of every complete line.  Returns the emitted
fragments in order together with the final retained buffer. -/
def readStreamLoop (f : List Char → Option (List Char)) :
    List Char → List (List Char) → List (List Char) × List Char
  | buffer, [] => ([], buffer)
  | buffer, chunk :: rest =>
    let p := splitLines (buffer ++ chunk)
    let r := readStreamLoop f p.2 rest
    (p.1.filterMap (emitLine f) ++ r.1, r.2)

/-- Full `readStream` behaviour over a chunk sequence: the loop, then the flush
of a non-empty retained buffer (lines 390-393). -/
def readStream (f : List Char → Option (List Char)) (chunks : List (List Char)) :
    List (List Char) :=
  let r := readStreamLoop f [] chunks
  r.1 ++ (if r.2.isEmpty then [] else (emitLine f r.2).toList)

/-! ## OpenAI-style SSE delta extractor (`streamOpenAI`, lines 448-462) -/

/-- JavaScript `String.trim` (modelled with the core whitespace class, which
covers every character occurring in the verified payloads). -/
def trimChars (s : List Char) : List Char :=
  ((s.dropWhile Char.isWhitespace).reverse.dropWhile Char.isWhitespace).reverse

/-- The per-line delta extractor handed to `readStream` by `streamOpenAI`
(lines 448-462), parametrized by the `JSON.parse` function `jp` so that
independence from the parser can be stated: blank lines and lines without the
`data: ` prefix give `null`; the literal `[DONE]` payload returns before any
parse; a parse failure is caught and gives `null`; an absent or empty
`choices[0].delta.content` gives `null` via `content || null`. -/
def streamOpenAILine (jp : List Char → Option Json) (line : List Char) :
    Option (List Char) :=
  let trim := trimChars line
  if trim.isEmpty ∨ ¬ List.isPrefixOf ("data: ".toList) trim then none
  else
    let dataStr := trim.drop 6
    if dataStr = ("[DONE]".toList) then none
    else
      match jp dataStr with
      | some json => truthyText (deltaContent json)
      | none => none

/-! ## Google-style brace-balanced frame decoder (`streamGoogle`, lines 587-632) -/

/-- The brace-matching scan of one `streamGoogle` reader iteration
(lines 598-626): walk the buffer with a brace depth counter, recording the
substring from the last depth-0 opening brace whenever the depth returns to
zero, and remembering how far the buffer was consumed.  `full` is the whole
buffer (for `substring`), the second argument the remaining characters at
index `i`.  `start = -1` is the sentinel for "no open unit". -/
def googleScanAux (full : List Char) :
    List Char → Nat → Int → Int → Nat → List (List Char) → List (List Char) × Nat
  | [], _, _, _, consumed, units => (units.reverse, consumed)
  | ch :: rest, i, braceCount, start, consumed, units =>
    if ch = '{' then
      googleScanAux full rest (i + 1) (braceCount + 1)
        (if braceCount = 0 then (i : Int) else start) consumed units
    else if ch = '}' then
      if braceCount - 1 = 0 ∧ start ≠ -1 then
        googleScanAux full rest (i + 1) (braceCount - 1) (-1) (i + 1)
          (((full.drop start.toNat).take (i + 1 - start.toNat)) :: units)
      else
        googleScanAux full rest (i + 1) (braceCount - 1) start consumed units
    else
      googleScanAux full rest (i + 1) braceCount start consumed units

/-- One full scan of a buffer with `braceCount = 0`, `start = -1`,
`consumedUpTo = 0`, as at the top of every reader iteration. -/
def googleScan (buffer : List Char) : List (List Char) × Nat :=
  googleScanAux buffer buffer 0 0 (-1) 0 []

/-- One reader iteration (lines 594-631): extend the buffer with the decoded
chunk, scan it, and drop the consumed prefix when any unit completed. -/
def googleStep (buffer chunk : List Char) : List (List Char) × List Char :=
  let b := buffer ++ chunk
  let s := googleScan b
  (s.1, if s.2 > 0 then b.drop s.2 else b)

/-- All complete units produced across a chunk sequence, threading the
retained buffer; the leftover buffer at end of stream is discarded (the Google
path has no flush). -/
def googleUnits : List Char → List (List Char) → List (List Char)
  | _, [] => []
  | buffer, chunk :: rest =>
    let s := googleStep buffer chunk
    s.1 ++ googleUnits s.2 rest

/-- Per-unit processing inside the scan (lines 611-621): `JSON.parse` the
unit — a failure is swallowed — then `json.candidates?.[0]?.content?.parts?.[0]?.text`,
emitted only when truthy (`if (text)`). -/
def googleUnitText (u : List Char) : Option (List Char) :=
  match jsonParse u with
  | some json => truthyText (candidatesText json)
  | none => none

/-- Fragments `streamGoogle` hands to `onChunk`, in order, for the given
network chunks: each completed unit is processed at the moment its closing
brace is scanned, which is unit order. -/
def streamGoogleFragments (chunks : List (List Char)) : List (List Char) :=
  (googleUnits [] chunks).filterMap googleUnitText

/-- The accumulated `fullText` returned by `streamGoogle` (line 634). -/
def streamGoogleFullText (chunks : List (List Char)) : List Char :=
  (streamGoogleFragments chunks).flatten

/-- Delivers a character stream one byte at a time. -/
def oneByteChunks (s : List Char) : List (List Char) :=
  s.map (fun c => [c])

/-! ## Dispatcher (`executeApiCall` / `executeApiStream`, lines 8-76) -/

/-- JavaScript `x || y` where `x` is an optional string: `undefined`, `null`
and the empty string are all falsy. -/
def strOr (x : Option (List Char)) (y : List Char) : List Char :=
  match x with
  | some s => if s.isEmpty then y else s
  | none => y

/-- Default base URLs (lines 181-189). -/
def getDefaultBaseUrl (provider : List Char) : List Char :=
  if provider = ("openai".toList) then ("https://api.openai.com/v1".toList)
  else if provider = ("google".toList) then
    ("https://generativelanguage.googleapis.com/v1beta".toList)
  else if provider = ("anthropic".toList) then ("https://api.anthropic.com/v1".toList)
  else if provider = ("openrouter".toList) then ("https://openrouter.ai/api/v1".toList)
  else []

/-- The configuration fields the dispatcher reads: maps are partial because a
provider may have no entry at all (`config.apiKeys[provider]` is `undefined`). -/
structure AppConfig where
  selectedProvider : List Char
  apiKeys : List Char → Option (List (List Char))
  customBaseUrls : List Char → Option (List Char)
  selectedModel : List Char → Option (List Char)

/-- Outcome of one awaited provider streaming call: a normal response, a
thrown error with its message, or a thrown `AbortError`. -/
inductive StreamOutcome where
  | ok (r : ApiResponse)
  | thrown (message : List Char)
  | abortError

/-- `executeApiCall` (lines 8-41), parametrized by the provider network call
`net` (receiving the chosen key, resolved base URL and model — the
provider `switch` plus HTTP exchange of lines 24-37) and by the random key
index.  The surrounding `try`/`catch` (lines 38-40) maps a thrown error to
`{ text: '', error: e.message || 'API call failed' }`. -/
def executeApiCall (net : List Char → List Char → List Char → Except (List Char) ApiResponse)
    (randIndex : Nat) (config : AppConfig) : ApiResponse :=
  let provider := config.selectedProvider
  match config.apiKeys provider with
  | none => { text := [], error := some (("No API key found for ".toList) ++ provider) }
  | some apiKeys =>
    if apiKeys.length = 0 then
      { text := [], error := some (("No API key found for ".toList) ++ provider) }
    else
      let apiKey := apiKeys.getD (randIndex % apiKeys.length) []
      let baseUrl := strOr (config.customBaseUrls provider) (getDefaultBaseUrl provider)
      let model := (config.selectedModel provider).getD []
      match net apiKey baseUrl model with
      | .ok r => r
      | .error m =>
        { text := [], error := some (if m.isEmpty then ("API call failed".toList) else m) }

/-- `executeApiStream` (lines 43-76) with the same parametrization; its
`catch` (lines 72-75) rethrows an `AbortError` (modelled as `Except.error ()`,
a rejected promise) and maps any other thrown error to
`{ text: '', error: e.message || 'Stream failed' }`. -/
def executeApiStream (net : List Char → List Char → List Char → StreamOutcome)
    (randIndex : Nat) (config : AppConfig) : Except Unit ApiResponse :=
  let provider := config.selectedProvider
  match config.apiKeys provider with
  | none =>
    Except.ok { text := [], error := some (("No API key found for ".toList) ++ provider) }
  | some apiKeys =>
    if apiKeys.length = 0 then
      Except.ok { text := [], error := some (("No API key found for ".toList) ++ provider) }
    else
      let apiKey := apiKeys.getD (randIndex % apiKeys.length) []
      let baseUrl := strOr (config.customBaseUrls provider) (getDefaultBaseUrl provider)
      let model := (config.selectedModel provider).getD []
      match net apiKey baseUrl model with
      | .ok r => Except.ok r
      | .thrown m =>
        Except.ok { text := [], error := some (if m.isEmpty then ("Stream failed".toList) else m) }
      | .abortError => Except.error ()

/-! ## Relay (`callApi` content-script path, lines 87-113) -/

/-- Inbound messages on the `stream_api` port. -/
inductive PortMsg where
  | done
  | error (e : List Char)
  | chunk (s : List Char)

/-- The `port.onMessage` listener of `callApi` (lines 99-110), threaded over a
message sequence: `msg.done` resolves with the accumulated text, a truthy
`msg.error` resolves with the accumulated text and that error, a truthy
`msg.chunk` is appended to `fullText`; falsy fields fall through and the
message is ignored.  `none` means the session never resolves. -/
def relayListen : List Char → List PortMsg → Option ApiResponse
  | _, [] => none
  | fullText, m :: rest =>
    match m with
    | .done => some { text := fullText }
    | .error e =>
      if e.isEmpty then relayListen fullText rest
      else some { text := fullText, error := some e }
    | .chunk s => relayListen (fullText ++ (if s.isEmpty then [] else s)) rest

/-- The relay path of `callApi` (lines 87-113): when the abort signal fires
before any inbound message, the port is disconnected and the promise rejected
with `AbortError` (lines 92-97, modelled as `Except.error ()`); otherwise the
listener processes the inbound messages. -/
def callApiRelay (abortedBeforeMessages : Bool) (msgs : List PortMsg) :
    Except Unit (Option ApiResponse) :=
  if abortedBeforeMessages then Except.error ()
  else Except.ok (relayListen [] msgs)

/-- Terminal outcome of one privileged-side streaming run. -/
inductive Terminal where
  | success
  | failure (e : List Char)

/-- Modelled from the spec: the privileged-side half of the `stream_api`
relay (the background `onConnect` handler) is not among the sources; per
spec §4.5 it forwards every fragment as a `{chunk}` message in emission order
and then sends exactly one terminal `{done}` or `{error}` message. -/
def relayMessagesOf (frags : List (List Char)) : Terminal → List PortMsg
  | .success => frags.map PortMsg.chunk ++ [PortMsg.done]
  | .failure e => frags.map PortMsg.chunk ++ [PortMsg.error e]

/-- A local streaming adapter run that emitted the given fragments and then
terminated: on success the adapters return the accumulated `fullText`
(e.g. line 464); on failure the thrown error reaches `executeApiStream`'s
`catch`, which discards the accumulation. -/
def localStreamRun (frags : List (List Char)) : Terminal → StreamOutcome
  | .success => .ok { text := frags.flatten }
  | .failure e => .thrown e

/-- A configuration with a single configured key, used to drive the local
streaming path. -/
def oneKeyConfig : AppConfig :=
  { selectedProvider := ("openai".toList)
  , apiKeys := fun _ => some [("sk-test".toList)]
  , customBaseUrls := fun _ => none
  , selectedModel := fun _ => some ("gpt-test".toList) }

/-- A configuration whose `openai` credential pool is empty. -/
def emptyPoolConfig : AppConfig :=
  { selectedProvider := ("openai".toList)
  , apiKeys := fun _ => some []
  , customBaseUrls := fun _ => none
  , selectedModel := fun _ => none }

/-! ## Non-success HTTP status handling (`callOpenAI` / `streamOpenAI`) -/

/-- Placeholder for the engine-specific `SyntaxError` message thrown by
`JSON.parse` on invalid input; its text is environment-dependent and no
theorem below depends on it. -/
def jsonSyntaxErrorText : List Char := "Unexpected token in JSON".toList

/-- The `err.error?.message` navigation of the error envelope; non-string
`message` values are modelled as absent. -/
def errEnvelopeMessage (j : Json) : Option (List Char) := do
  let e ← getField j ("error".toList)
  let m ← getField e ("message".toList)
  asString m

/-- Non-ok handler of the non-streaming `callOpenAI` (lines 254-257) composed
with `executeApiCall`'s `catch` (lines 38-40): `await response.json()` then
`throw new Error(err.error?.message || response.statusText)`; when the body is
not JSON, `response.json()` itself throws and that exception's message is what
the `catch` surfaces. -/
def callOpenAINotOk (body statusText : List Char) : ApiResponse :=
  match jsonParse body with
  | some errJson =>
    let m := strOr (errEnvelopeMessage errJson) statusText
    { text := [], error := some (if m.isEmpty then ("API call failed".toList) else m) }
  | none =>
    { text := [],
      error := some (if jsonSyntaxErrorText.isEmpty then ("API call failed".toList)
        else jsonSyntaxErrorText) }

/-- The message of the error `streamOpenAI` throws on a non-ok response
(lines 433-441): `const err = await response.text();
try { const jsonErr = JSON.parse(err); throw new Error(jsonErr.error?.message
|| response.statusText); } catch { throw new Error(err ||
response.statusText); }` — the inner `throw` (and equally a parse failure) is
itself caught by the `catch` clause, which throws `err || statusText`. -/
def streamOpenAINotOkMessage (body statusText : List Char) : List Char :=
  let attempt : Except (List Char) (List Char) :=
    match jsonParse body with
    | some jsonErr => Except.error (strOr (errEnvelopeMessage jsonErr) statusText)
    | none => Except.error jsonSyntaxErrorText
  match attempt with
  | Except.ok m => m
  | Except.error _ => strOr (some body) statusText

/-- The response `executeApiStream` resolves with when `streamOpenAI` sees a
non-ok status: the thrown message lands in the `catch` of lines 72-75. -/
def streamOpenAINotOk (body statusText : List Char) : ApiResponse :=
  { text := [],
    error := some (if (streamOpenAINotOkMessage body statusText).isEmpty
      then ("Stream failed".toList) else streamOpenAINotOkMessage body statusText) }

/-! ## Concrete payloads used by the scenario claims -/

/-- The error envelope of the 401 scenario: `{"error":{"message":"bad key"}}`. -/
def badKeyBody : List Char := "\x7b\"error\":\x7b\"message\":\"bad key\"\x7d\x7d".toList

/-- First network chunk of the Google streaming scenario. -/
def gChunk1 : List Char := "[\x7b\"candidates\":[\x7b\"content\":\x7b\"parts\":[\x7b\"text\":\"Hel".toList

/-- Second network chunk of the Google streaming scenario. -/
def gChunk2 : List Char := "lo\"\x7d]\x7d\x7d]\x7d]".toList

/-- Third network chunk of the Google streaming scenario. -/
def gChunk3 : List Char := ",\x7b\"candidates\":[\x7b\"content\":\x7b\"parts\":[\x7b\"text\":\" world\"\x7d]\x7d\x7d]\x7d]".toList

/-- The synthetic brace-in-string array of the decoder claim:
`[{"a":"{literal brace in string}"},{"a":"second"}]` (its in-string braces are
balanced). -/
def syntheticBraceArray : List Char :=
  "[\x7b\"a\":\"\x7bliteral brace in string\x7d\"\x7d,\x7b\"a\":\"second\"\x7d]".toList

/-- A payload whose string literal contains a single unbalanced closing brace:
`[{"a":"}"},{"a":"x"}]`. -/
def unbalancedBraceArray : List Char :=
  "[\x7b\"a\":\"\x7d\"\x7d,\x7b\"a\":\"x\"\x7d]".toList

/-- The parsed form of `badKeyBody`, used to discharge hypotheses concretely. -/
def badKeyJson : Json :=
  Json.obj [(("error".toList), Json.obj [(("message".toList), Json.str ("bad key".toList))])]

/-! ## Helper lemmas -/

/-- Splitting a concatenation: the complete lines of `a ++ b` are those of `a`
followed by those of `a`'s retained tail prepended to `b`, and the tails agree. -/
theorem splitLines_cons_ne (c : Char) (cs : List Char) (hc : ¬ c = '\n') :
    splitLines (c :: cs) = consLine c (splitLines cs) := by
  simp [splitLines, hc]

/-- Splitting a concatenation: the complete lines of `a ++ b` are those of `a`
followed by those of `a`'s retained tail prepended to `b`, and the tails agree. -/
theorem splitLines_append (a b : List Char) :
    splitLines (a ++ b) =
      ((splitLines a).1 ++ (splitLines ((splitLines a).2 ++ b)).1,
       (splitLines ((splitLines a).2 ++ b)).2) := by
  induction a with
  | nil => simp [splitLines]
  | cons c cs ih =>
    by_cases hc : c = '\n'
    · simp [splitLines, hc, ih]
    · rw [List.cons_append, splitLines_cons_ne c (cs ++ b) hc, splitLines_cons_ne c cs hc, ih]
      rcases h1 : splitLines cs with ⟨ls, t⟩
      cases ls with
      | nil =>
        dsimp only [consLine]
        rw [List.cons_append, splitLines_cons_ne c (t ++ b) hc]
        rcases h2 : splitLines (t ++ b) with ⟨ls2, t2⟩
        cases ls2 with
        | nil => simp [consLine]
        | cons l2 ls2' => simp [consLine]
      | cons l ls' =>
        simp [consLine]

/-- A non-empty chunk list processed by the loop emits exactly the truthy
parses of the complete lines of the whole concatenation, retaining its
unterminated tail. -/
theorem readStreamLoop_flatten (f : List Char → Option (List Char)) :
    ∀ (cs : List (List Char)) (buffer c : List Char),
      readStreamLoop f buffer (c :: cs) =
        ((splitLines (buffer ++ (c :: cs).flatten)).1.filterMap (emitLine f),
         (splitLines (buffer ++ (c :: cs).flatten)).2) := by
  intro cs
  induction cs with
  | nil =>
    intro buffer c
    show (_, _) = _
    rw [readStreamLoop]
    simp
  | cons c' cs' ih =>
    intro buffer c
    have happ : buffer ++ (c :: c' :: cs').flatten = (buffer ++ c) ++ (c' :: cs').flatten := by
      simp [List.flatten_cons, List.append_assoc]
    rw [happ, splitLines_append]
    show ((splitLines (buffer ++ c)).1.filterMap (emitLine f) ++
        (readStreamLoop f (splitLines (buffer ++ c)).2 (c' :: cs')).1,
      (readStreamLoop f (splitLines (buffer ++ c)).2 (c' :: cs')).2) = _
    rw [ih]
    simp [List.filterMap_append]

/-- A surviving truthiness filter output is non-empty. -/
theorem truthyText_ne_nil (o : Option (List Char)) (s : List Char)
    (h : truthyText o = some s) : s ≠ [] := by
  cases o with
  | none => simp [truthyText] at h
  | some t =>
    cases t with
    | nil => simp [truthyText] at h
    | cons x xs =>
      simp only [truthyText, List.isEmpty_cons, Bool.false_eq_true, if_false,
        Option.some_inj] at h
      subst h
      simp

/-- Every fragment produced by `emitLine` is non-empty. -/
theorem emitLine_ne_nil (f : List Char → Option (List Char)) (l s : List Char)
    (h : emitLine f l = some s) : s ≠ [] :=
  truthyText_ne_nil (f l) s h

/-- Every fragment emitted by the loop is non-empty. -/
theorem readStreamLoop_ne_nil (f : List Char → Option (List Char)) :
    ∀ (chunks : List (List Char)) (buffer s : List Char),
      s ∈ (readStreamLoop f buffer chunks).1 → s ≠ [] := by
  intro chunks
  induction chunks with
  | nil => intro buffer s h; simp [readStreamLoop] at h
  | cons c cs ih =>
    intro buffer s h
    rw [readStreamLoop] at h
    simp only [List.mem_append] at h
    rcases h with h | h
    · rcases List.mem_filterMap.mp h with ⟨l, _, hl⟩
      exact emitLine_ne_nil f l s hl
    · exact ih _ s h

/-- The literal `[DONE]` payload short-circuits the OpenAI line extractor for
any parse function. -/
theorem streamOpenAILine_done (jp : List Char → Option Json) :
    streamOpenAILine jp ("data: [DONE]".toList) = none := rfl

/-- Messages carrying the fragments as chunks accumulate their concatenation. -/
theorem relayListen_chunks (frags : List (List Char)) :
    ∀ (acc : List Char) (rest : List PortMsg),
      relayListen acc (frags.map PortMsg.chunk ++ rest) =
        relayListen (acc ++ frags.flatten) rest := by
  induction frags with
  | nil => intro acc rest; simp [relayListen]
  | cons s fs ih =>
    intro acc rest
    rw [List.map_cons, List.cons_append, relayListen]
    by_cases hs : s.isEmpty
    · have hnil : s = [] := by simpa using hs
      simp [hs, hnil, ih]
    · simp only [hs, Bool.false_eq_true, if_false, ih, List.flatten_cons, List.append_assoc]

/-! ## Claim theorems -/

/-- C1 (code evaluation at the failing input): the brace-balanced decoder is
not string-literal-aware.  On `[{"a":"}"},{"a":"x"}]` delivered byte by byte
it produces a single truncated unit `{"a":"}` — not the two correct units —
which does not even parse, so both objects' texts are lost; the claim's own
synthetic example decodes correctly only because its in-string braces happen
to be balanced. -/
theorem googleDecoder_unbalanced_brace_eval :
    googleUnits [] (oneByteChunks unbalancedBraceArray) = [("\x7b\"a\":\"\x7d".toList)] ∧
    googleUnits [] (oneByteChunks unbalancedBraceArray) ≠
      [("\x7b\"a\":\"\x7d\"\x7d".toList), ("\x7b\"a\":\"x\"\x7d".toList)] ∧
    jsonParse ("\x7b\"a\":\"\x7d".toList) = none ∧
    streamGoogleFragments (oneByteChunks unbalancedBraceArray) = [] ∧
    googleUnits [] (oneByteChunks syntheticBraceArray) =
      [("\x7b\"a\":\"\x7bliteral brace in string\x7d\"\x7d".toList),
       ("\x7b\"a\":\"second\"\x7d".toList)] :=
  ⟨by decide, by decide, rfl, by decide, by decide⟩

/-- C2: for every parser and every way of splitting the stream into chunks,
the fragments emitted by `readStream` equal those from feeding the whole
stream as one chunk, and the retained tail after the loop is the
newline-unterminated last element of the whole stream (flushed once at end of
input by `readStream` when non-empty). -/
theorem readStream_chunk_invariant :
    ∀ (f : List Char → Option (List Char)) (chunks : List (List Char)),
      readStream f chunks = readStream f [chunks.flatten] ∧
      (readStreamLoop f [] chunks).2 = (splitLines chunks.flatten).2 := by
  intro f chunks
  cases chunks with
  | nil =>
    constructor
    · simp [readStream, readStreamLoop, splitLines]
    · simp [readStreamLoop, splitLines]
  | cons c cs =>
    have h1 := readStreamLoop_flatten f cs [] c
    have h2 := readStreamLoop_flatten f [] [] (c ++ cs.flatten)
    simp only [List.flatten_cons, List.flatten_nil, List.append_nil, List.nil_append] at h1 h2
    constructor
    · simp only [readStream, List.flatten_cons, List.flatten_nil, List.append_nil,
        List.nil_append, h1, h2]
    · simp only [h1, List.flatten_cons]

/-- C2 witness: a concrete split against the single-chunk feed. -/
theorem readStream_chunk_invariant_witness :
    readStream (fun l => some l) [['a'], ['\n', 'b']] =
      readStream (fun l => some l) [['a', '\n', 'b']] :=
  (readStream_chunk_invariant (fun l => some l) [['a'], ['\n', 'b']]).1

/-- C3 counterexample: with one fragment `"a"` and terminal error `"boom"`,
the relay-backed caller resolves `{text:"a", error:"boom"}` while the local
`executeApiStream` path resolves `{text:"", error:"boom"}` — not the same
result. -/
theorem relay_error_result_differs_from_local :
    callApiRelay false (relayMessagesOf [("a".toList)] (Terminal.failure ("boom".toList))) =
      Except.ok (some { text := ("a".toList), error := some ("boom".toList) }) ∧
    executeApiStream
        (fun _ _ _ => localStreamRun [("a".toList)] (Terminal.failure ("boom".toList)))
        0 oneKeyConfig =
      Except.ok { text := [], error := some ("boom".toList) } ∧
    ({ text := ("a".toList), error := some ("boom".toList) } : ApiResponse) ≠
      { text := [], error := some ("boom".toList) } :=
  ⟨rfl, rfl, by decide⟩

/-- C3 amended: the caller-side half accumulates each chunk in arrival order
and resolves on the first terminal message; on `{done}` the relay-backed path
returns the same result as the local path, while on `{error}` (with a
non-empty message) both surface the same error but the relay path resolves
with the accumulated text and the local path with empty text. -/
theorem relay_accumulation_vs_local :
    ∀ (frags : List (List Char)) (e : List Char), e ≠ [] →
      (callApiRelay false (relayMessagesOf frags Terminal.success) =
          Except.ok (some { text := frags.flatten }) ∧
        executeApiStream (fun _ _ _ => localStreamRun frags Terminal.success)
            0 oneKeyConfig =
          Except.ok { text := frags.flatten }) ∧
      (callApiRelay false (relayMessagesOf frags (Terminal.failure e)) =
          Except.ok (some { text := frags.flatten, error := some e }) ∧
        executeApiStream (fun _ _ _ => localStreamRun frags (Terminal.failure e))
            0 oneKeyConfig =
          Except.ok { text := [], error := some e }) := by
  intro frags e he
  have he' : e.isEmpty = false := by
    cases e with
    | nil => exact absurd rfl he
    | cons x xs => rfl
  refine ⟨⟨?_, rfl⟩, ⟨?_, ?_⟩⟩
  · simp [callApiRelay, relayMessagesOf, relayListen_chunks, relayListen]
  · simp [callApiRelay, relayMessagesOf, relayListen_chunks, relayListen, he']
  · simp [executeApiStream, oneKeyConfig, localStreamRun, he']

/-- C3 amended, witness at a concrete input. -/
theorem relay_accumulation_vs_local_witness :
    callApiRelay false (relayMessagesOf [] (Terminal.failure ("x".toList))) =
      Except.ok (some { text := [], error := some ("x".toList) }) :=
  ((relay_accumulation_vs_local [] ("x".toList) (by decide)).2).1

/-- C4: a cancellation that fires before any network bytes arrive makes the
local path rethrow the `AbortError` (a rejected promise, `Except.error ()`)
and makes the relay path reject with `AbortError`; in either case the outcome
is distinguishable from every resolved `ApiResponse` — in particular from the
zero-length success and from any error result. -/
theorem cancellation_distinct_outcome :
    ∀ (randIndex : Nat) (msgs : List PortMsg),
      executeApiStream (fun _ _ _ => StreamOutcome.abortError) randIndex oneKeyConfig =
        Except.error () ∧
      callApiRelay true msgs = Except.error () ∧
      (∀ r : ApiResponse, (Except.error () : Except Unit ApiResponse) ≠ Except.ok r) ∧
      (∀ o : Option ApiResponse,
        (Except.error () : Except Unit (Option ApiResponse)) ≠ Except.ok o) := by
  intro randIndex msgs
  refine ⟨rfl, rfl, ?_, ?_⟩
  · intro r h; exact Except.noConfusion h
  · intro o h; exact Except.noConfusion h

/-- C4 witness: the local path at a concrete early abort. -/
theorem cancellation_distinct_outcome_witness :
    executeApiStream (fun _ _ _ => StreamOutcome.abortError) 0 oneKeyConfig =
      Except.error () :=
  (cancellation_distinct_outcome 0 []).1

/-- C5 counterexample: a non-success streaming response whose body is the JSON
envelope `{"error":{"message":"bad key"}}` (which parses, with nested message
`"bad key"`) surfaces the raw body text, not the nested `error.message` and
not the status line text. -/
theorem streamOpenAI_envelope_message_not_surfaced :
    (jsonParse badKeyBody).bind errEnvelopeMessage = some ("bad key".toList) ∧
    streamOpenAINotOk badKeyBody ("Unauthorized".toList) =
      { text := [], error := some badKeyBody } ∧
    badKeyBody ≠ ("bad key".toList) ∧
    badKeyBody ≠ ("Unauthorized".toList) :=
  ⟨rfl, rfl, by decide, by decide⟩

/-- C5 amended: the non-streaming call surfaces the nested `error.message`
when the body parses as JSON (so a 401 with the `bad key` envelope resolves to
`{text:'', error:'bad key'}`), but the streaming call surfaces the raw body
text whenever the body is non-empty — even when it is a parseable envelope —
and the transport status text only when the body is empty. -/
theorem error_envelope_amended :
    (∀ (body statusText : List Char) (j : Json) (m : List Char),
        jsonParse body = some j → errEnvelopeMessage j = some m → m ≠ [] →
        callOpenAINotOk body statusText = { text := [], error := some m }) ∧
    callOpenAINotOk badKeyBody ("Unauthorized".toList) =
      { text := [], error := some ("bad key".toList) } ∧
    (∀ body statusText : List Char,
        streamOpenAINotOkMessage body statusText =
          if body = [] then statusText else body) := by
  refine ⟨?_, rfl, ?_⟩
  · intro body statusText j m h1 h2 hm
    have hm' : m.isEmpty = false := by
      cases m with
      | nil => exact absurd rfl hm
      | cons x xs => rfl
    simp [callOpenAINotOk, h1, h2, strOr, hm']
  · intro body statusText
    cases hb : jsonParse body <;>
      · simp only [streamOpenAINotOkMessage, hb, strOr]
        cases body <;> simp

/-- C5 amended, witness: applying the envelope rule at the 401 scenario. -/
theorem error_envelope_amended_witness :
    callOpenAINotOk badKeyBody ("Some Status".toList) =
      { text := [], error := some ("bad key".toList) } :=
  error_envelope_amended.1 badKeyBody ("Some Status".toList) badKeyJson
    ("bad key".toList) rfl rfl (by decide)

/-- C6: with an empty or missing credential pool for the selected provider,
both dispatch paths return `{text:'', error:'No API key found for
<provider>'}` for every possible network behaviour and key choice — i.e.
without any network call, and without throwing (the streaming path resolves,
it does not reject). -/
theorem empty_pool_immediate_error :
    ∀ (netC : List Char → List Char → List Char → Except (List Char) ApiResponse)
      (netS : List Char → List Char → List Char → StreamOutcome)
      (randIndex : Nat) (config : AppConfig),
      (config.apiKeys config.selectedProvider = none ∨
        config.apiKeys config.selectedProvider = some []) →
      executeApiCall netC randIndex config =
        { text := [],
          error := some (("No API key found for ".toList) ++ config.selectedProvider) } ∧
      executeApiStream netS randIndex config =
        Except.ok
          ({ text := [],
             error := some (("No API key found for ".toList) ++ config.selectedProvider) } :
            ApiResponse) := by
  intro netC netS randIndex config h
  rcases h with h | h <;> constructor <;> simp [executeApiCall, executeApiStream, h]

/-- C6 witness: the `openai` scenario with an empty pool. -/
theorem empty_pool_immediate_error_witness :
    executeApiCall (fun _ _ _ => Except.error []) 0 emptyPoolConfig =
      { text := [],
        error := some (("No API key found for ".toList) ++ ("openai".toList)) } ∧
    executeApiStream (fun _ _ _ => StreamOutcome.abortError) 0 emptyPoolConfig =
      Except.ok
        ({ text := [],
           error := some (("No API key found for ".toList) ++ ("openai".toList)) } :
          ApiResponse) :=
  empty_pool_immediate_error (fun _ _ _ => Except.error [])
    (fun _ _ _ => StreamOutcome.abortError) 0 emptyPoolConfig (Or.inr rfl)

/-- C7: a payload exactly equal to the literal sentinel `[DONE]` yields no
fragment for any parse function — the sentinel is returned on before the JSON
parser could be consulted — so a stream ending in `data: [DONE]` emits nothing
for that line. -/
theorem done_sentinel_not_parsed :
    (∀ jp : List Char → Option Json,
        streamOpenAILine jp ("data: [DONE]".toList) = none) ∧
    (∀ (jp : List Char → Option Json) (lines : List (List Char)),
        (lines ++ [("data: [DONE]".toList)]).filterMap (emitLine (streamOpenAILine jp)) =
          lines.filterMap (emitLine (streamOpenAILine jp))) := by
  refine ⟨streamOpenAILine_done, ?_⟩
  intro jp lines
  have hd : emitLine (streamOpenAILine jp) ("data: [DONE]".toList) = none := by
    rw [emitLine, streamOpenAILine_done jp]
    rfl
  simp only [List.filterMap_append, List.filterMap_cons, hd, List.filterMap_nil,
    List.append_nil]

/-- C7 witness: the sentinel line under the real JSON parser. -/
theorem done_sentinel_not_parsed_witness :
    streamOpenAILine jsonParse ("data: [DONE]".toList) = none :=
  done_sentinel_not_parsed.1 jsonParse

/-- C8: the Google streaming call on the three scenario chunks emits exactly
`"Hello"` then `" world"` and resolves with `fullText = "Hello world"`. -/
theorem googleStream_three_chunk_scenario :
    streamGoogleFragments [gChunk1, gChunk2, gChunk3] =
      [("Hello".toList), (" world".toList)] ∧
    streamGoogleFullText [gChunk1, gChunk2, gChunk3] = ("Hello world".toList) :=
  ⟨by decide, by decide⟩

/-- C9: a unit that fails to parse is a no-op for both extractors — no
fragment, no surfaced error — and surrounding units are processed exactly as
if the malformed unit were absent. -/
theorem malformed_unit_noop :
    (∀ (jp : List Char → Option Json) (line : List Char),
        jp ((trimChars line).drop 6) = none → streamOpenAILine jp line = none) ∧
    (∀ u : List Char, jsonParse u = none → googleUnitText u = none) ∧
    (∀ (jp : List Char → Option Json) (ls1 ls2 : List (List Char)) (bad : List Char),
        streamOpenAILine jp bad = none →
        (ls1 ++ bad :: ls2).filterMap (emitLine (streamOpenAILine jp)) =
          ls1.filterMap (emitLine (streamOpenAILine jp)) ++
            ls2.filterMap (emitLine (streamOpenAILine jp))) ∧
    (∀ (us1 us2 : List (List Char)) (bad : List Char),
        googleUnitText bad = none →
        (us1 ++ bad :: us2).filterMap googleUnitText =
          us1.filterMap googleUnitText ++ us2.filterMap googleUnitText) := by
  refine ⟨?_, ?_, ?_, ?_⟩
  · intro jp line h
    simp only [streamOpenAILine]
    split
    · rfl
    · split
      · rfl
      · rw [h]
  · intro u h
    unfold googleUnitText
    rw [h]
  · intro jp ls1 ls2 bad h
    simp [List.filterMap_append, List.filterMap_cons, emitLine, h, truthyText]
  · intro us1 us2 bad h
    simp [List.filterMap_append, List.filterMap_cons, h]

/-- C9 witness: a syntactically incomplete payload is swallowed. -/
theorem malformed_unit_noop_witness :
    streamOpenAILine jsonParse ("data: \x7boops".toList) = none :=
  malformed_unit_noop.1 jsonParse ("data: \x7boops".toList) rfl

/-- C10: every fragment handed to the sink is non-empty, on the SSE path (for
any parser) and on the Google path alike: units whose extracted text is
absent or empty produce no sink call. -/
theorem emitted_fragments_nonempty :
    (∀ (f : List Char → Option (List Char)) (chunks : List (List Char)) (s : List Char),
        s ∈ readStream f chunks → s ≠ []) ∧
    (∀ (chunks : List (List Char)) (s : List Char),
        s ∈ streamGoogleFragments chunks → s ≠ []) := by
  constructor
  · intro f chunks s h
    simp only [readStream, List.mem_append] at h
    rcases h with h | h
    · exact readStreamLoop_ne_nil f chunks [] s h
    · rcases hb : (readStreamLoop f [] chunks).2.isEmpty with _ | _
      · rw [hb] at h
        simp only [Bool.false_eq_true, if_false, Option.mem_toList, Option.mem_def] at h
        exact emitLine_ne_nil f _ s h
      · rw [hb] at h
        simp at h
  · intro chunks s h
    rcases List.mem_filterMap.mp h with ⟨u, _, hu⟩
    unfold googleUnitText at hu
    cases hp : jsonParse u with
    | none => rw [hp] at hu; exact absurd hu (by simp)
    | some j =>
      rw [hp] at hu
      exact truthyText_ne_nil (candidatesText j) s hu

/-- C10 witness: the fragment emitted for a well-formed delta line is
non-empty. -/
theorem emitted_fragments_nonempty_witness : ("hi".toList) ≠ [] :=
  emitted_fragments_nonempty.1 (streamOpenAILine jsonParse)
    [("data: \x7b\"choices\":[\x7b\"delta\":\x7b\"content\":\"hi\"\x7d\x7d]\x7d\n".toList)]
    ("hi".toList) (by decide)

end Spec2Proof
